/-
Verification of the bplvkit point-of-sale engine (src/db_driver.py, src/api.py).

The SQLite-backed persistence layer of `DatabaseDriver` is shallowly embedded
as a pure state type `DB` holding the rows of each table in insertion (rowid)
order, together with the AUTOINCREMENT counters (which start at 1 in SQLite).
Each Python method becomes a Lean function from a `DB` (and its arguments) to
a result and an updated `DB`; every operation is modelled as one atomic state
transformation, matching the serializable-transaction model of the spec.
INTEGER columns are `Int`, TEXT columns `String`, and REAL columns are
embedded as exact rationals `ℚ` (the arithmetic performed by the code:
products, sums, divisions of machine-representable amounts).
Dates and times are opaque strings passed in by the caller (the code reads
`datetime.now()`); they take part in no claim.
-/

import Mathlib

namespace BPLV

/-- Row of the `bevs` table (and the `Bev` dataclass).  The `supplier_id`
column is never written or read by any operation modelled here and is
omitted. -/
structure Bev where
  id : String
  name : String
  category : String
  subcategory : String
  price : Int
  inventory : Int
  image : String
  sales : Int
deriving DecidableEq, Repr

/-- Row of the `tax_rates` table. -/
structure TaxRate where
  taxId : Nat
  taxType : String
  rate : ℚ
deriving DecidableEq, Repr

/-- Row of the `transactions` table. -/
structure Txn where
  transactionId : Nat
  date : String
  time : String
  totalAmount : ℚ
  taxAmount : ℚ
  paymentMethod : String
  employeeId : Option Int
deriving DecidableEq, Repr

/-- Row of the `transaction_items` table.  `itemId` is the `item_id` TEXT
column (the beverage reference); `transactionItemId` is the AUTOINCREMENT
primary key. -/
structure TxnItem where
  transactionItemId : Nat
  transactionId : Nat
  itemId : String
  quantity : Int
  unitPrice : ℚ
  lineTotal : ℚ
  taxCategory : String
  taxAmount : ℚ
deriving DecidableEq, Repr

/-- Row of the `tax_details` table. -/
structure TaxDetail where
  transactionItemId : Nat
  taxId : Nat
  calculatedTaxAmount : ℚ
deriving DecidableEq, Repr

/-- Row of the `order_batches` table.  `order_time` is an opaque timestamp
taking part in no claim and is omitted.  `status` defaults to "pending". -/
structure OrderBatch where
  batchId : Nat
  tableNumber : String
  status : String
  customerId : Option Int
deriving DecidableEq, Repr

/-- Row of the `batch_items` table.  `itemId` is the AUTOINCREMENT primary
key `item_id`; `status` defaults to "pending". -/
structure BatchItem where
  itemId : Nat
  batchId : Nat
  bevId : String
  quantity : Int
  notes : Option String
  status : String
deriving DecidableEq, Repr

/-- Row of the `drink_recommendations` table. -/
structure DrinkRec where
  bevId : String
  recommendedBevId : String
  confidence : ℚ
deriving DecidableEq, Repr

/-- The database state: each table as its list of rows in rowid (insertion)
order, plus the next AUTOINCREMENT value of each id-generating table
(SQLite rowids start at 1). -/
structure DB where
  bevs : List Bev
  taxRates : List TaxRate
  txns : List Txn
  txnItems : List TxnItem
  taxDetails : List TaxDetail
  batches : List OrderBatch
  batchItems : List BatchItem
  recs : List DrinkRec
  nextTxnId : Nat
  nextTxnItemId : Nat
  nextBatchId : Nat
  nextBatchItemId : Nat
  nextTaxId : Nat
deriving DecidableEq, Repr

/-- `DatabaseDriver._generate_id`: `name.lower().replace(" ", "_")` —
lower-case the name and turn spaces into underscores.  Because the replaced
pattern is the single character " ", the whole transformation is this
character-wise map. -/
def generate_id (name : String) : String :=
  ⟨name.data.map (fun c => if c.toLower = ' ' then '_' else c.toLower)⟩

/-- `DatabaseDriver._bev_exists`: `SELECT 1 FROM bevs WHERE id = ?`. -/
def bev_exists (db : DB) (id : String) : Bool :=
  db.bevs.any (fun b => b.id = id)

/-- `DatabaseDriver.create_bev`: UPDATE of every field when the id exists
(`bevs.id` is the primary key, so at most one row matches), INSERT
otherwise; returns the `Bev` dataclass built from the arguments. -/
def create_bev (db : DB) (id name category subcategory : String)
    (price inventory : Int) (image : String) (sales : Int) : Bev × DB :=
  let b : Bev := ⟨id, name, category, subcategory, price, inventory, image, sales⟩
  if bev_exists db id then
    (b, { db with bevs := db.bevs.map (fun r => if r.id = id then b else r) })
  else
    (b, { db with bevs := db.bevs ++ [b] })

/-- `DatabaseDriver.get_bev_by_id`: `SELECT * FROM bevs WHERE id = ?`,
first row or `None`. -/
def get_bev_by_id (db : DB) (id : String) : Option Bev :=
  db.bevs.find? (fun b => b.id = id)

/-- `DatabaseDriver.delete_bev`: DELETE by id; `rowcount > 0` iff a row
existed. -/
def delete_bev (db : DB) (id : String) : Bool × DB :=
  (db.bevs.any (fun b => b.id = id),
   { db with bevs := db.bevs.filter (fun b => decide (b.id ≠ id)) })

/-- `DatabaseDriver.get_bevs_by_category`: SELECT by category in rowid
order. -/
def get_bevs_by_category (db : DB) (category : String) : List Bev :=
  db.bevs.filter (fun b => b.category = category)

/-- The four default tax-rate rows inserted by the seeding routine, with
consecutive AUTOINCREMENT ids starting at `startId`. -/
def seededTaxRates (startId : Nat) : List TaxRate :=
  [⟨startId, "pour/shot", 7/100⟩, ⟨startId + 1, "glass", 7/100⟩,
   ⟨startId + 2, "bottle", 9/100⟩, ⟨startId + 3, "event", 1/10⟩]

/-- `DatabaseDriver.initialize_tax_rates`: seed the four default rates only
when the `tax_rates` table is empty; a no-op otherwise. -/
def initialize_tax_rates (db : DB) : DB :=
  if db.taxRates.isEmpty then
    { db with taxRates := seededTaxRates db.nextTaxId, nextTaxId := db.nextTaxId + 4 }
  else db

/-- `DatabaseDriver.calculate_item_tax`: look the price up by id
(`(0, 0)` when the beverage is missing); `line_total = price * quantity`;
rate from `tax_rates` by category, defaulting to 7% when absent;
`tax_amount = line_total * rate`. -/
def calculate_item_tax (db : DB) (itemId : String) (quantity : Int)
    (taxCategory : String) : ℚ × ℚ :=
  match db.bevs.find? (fun b => b.id = itemId) with
  | none => (0, 0)
  | some b =>
    let lineTotal : ℚ := ((b.price * quantity : Int) : ℚ)
    let rate : ℚ :=
      match db.taxRates.find? (fun r => r.taxType = taxCategory) with
      | some r => r.rate
      | none => 7/100
    (lineTotal, lineTotal * rate)

/-- An element of the `items` list passed to `create_transaction`: a dict
with an `id`, a `quantity` and an optional `tax_category` key. -/
structure TxnInput where
  id : String
  quantity : Int
  taxCategory : Option String
deriving DecidableEq, Repr

/-- Accumulator of `create_transaction`'s item loop: the transaction items
and tax details inserted so far, the next `transaction_items` rowid, and the
running totals. -/
structure ItemsAcc where
  newItems : List TxnItem
  newDetails : List TaxDetail
  nextItemId : Nat
  total : ℚ
  tax : ℚ
deriving DecidableEq, Repr

/-- The tax category of a transaction input:
`item.get('tax_category', 'pour/shot')`. -/
def itemTaxCategory (it : TxnInput) : String :=
  it.taxCategory.getD "pour/shot"

/-- The `transaction_items` row inserted for one input by
`create_transaction`: line total and tax from `calculate_item_tax`, and
`unit_price = line_total / quantity` when `quantity > 0`, else `0` (the
source's guard against dividing by zero). -/
def mkTxnItem (db0 : DB) (tid : Nat) (rowId : Nat) (it : TxnInput) : TxnItem :=
  let taxCategory := itemTaxCategory it
  let res := calculate_item_tax db0 it.id it.quantity taxCategory
  let unitPrice : ℚ := if it.quantity > 0 then res.1 / (it.quantity : ℚ) else 0
  ⟨rowId, tid, it.id, it.quantity, unitPrice, res.1, taxCategory, res.2⟩

/-- One iteration of `create_transaction`'s item loop: insert the
transaction item, record a tax detail when the category has a `tax_rates`
row (`record_tax_detail` returns without inserting otherwise), and
accumulate the totals. -/
def processItem (db0 : DB) (tid : Nat) (acc : ItemsAcc) (it : TxnInput) : ItemsAcc :=
  let taxCategory := itemTaxCategory it
  let res := calculate_item_tax db0 it.id it.quantity taxCategory
  let item : TxnItem := mkTxnItem db0 tid acc.nextItemId it
  let details :=
    match db0.taxRates.find? (fun r => r.taxType = taxCategory) with
    | some r => acc.newDetails ++ [⟨acc.nextItemId, r.taxId, res.2⟩]
    | none => acc.newDetails
  ⟨acc.newItems ++ [item], details, acc.nextItemId + 1,
   acc.total + res.1, acc.tax + res.2⟩

/-- `DatabaseDriver.create_transaction`: insert a transaction row, loop over
the items inserting a transaction item (and tax detail) per input while
accumulating the totals, then write the accumulated totals back to the
transaction row.  The insert-with-zero-totals followed by the final UPDATE
is modelled as inserting the finished row.  Returns the new transaction's
rowid. -/
def create_transaction (db : DB) (paymentMethod : String) (items : List TxnInput)
    (employeeId : Option Int) (dateStr timeStr : String) : Nat × DB :=
  let tid := db.nextTxnId
  let acc := items.foldl (processItem db tid) ⟨[], [], db.nextTxnItemId, 0, 0⟩
  (tid,
   { db with
     txns := db.txns ++ [⟨tid, dateStr, timeStr, acc.total, acc.tax, paymentMethod, employeeId⟩],
     txnItems := db.txnItems ++ acc.newItems,
     taxDetails := db.taxDetails ++ acc.newDetails,
     nextTxnId := tid + 1,
     nextTxnItemId := acc.nextItemId })

/-- One item line of a receipt (name from the `bevs` join). -/
structure ReceiptItem where
  name : String
  quantity : Int
  unitPrice : ℚ
  total : ℚ
  tax : ℚ
deriving DecidableEq, Repr

/-- The receipt dict built by `generate_receipt`. -/
structure Receipt where
  transactionId : Nat
  date : String
  time : String
  items : List ReceiptItem
  subtotal : ℚ
  tax : ℚ
  total : ℚ
  paymentMethod : String
deriving DecidableEq, Repr

/-- `DatabaseDriver.generate_receipt`: `none` models the
`{"error": "Transaction not found"}` dict returned when the transaction id
has no row.  Items are the transaction's items inner-joined with `bevs`
(`bevs.id` is the primary key, so `find?` is the join);
`subtotal = total_amount - tax_amount` is derived, not stored. -/
def generate_receipt (db : DB) (transactionId : Nat) : Option Receipt :=
  match db.txns.find? (fun t => t.transactionId = transactionId) with
  | none => none
  | some t =>
    let items := (db.txnItems.filter (fun it => it.transactionId = transactionId)).filterMap
      fun it => (db.bevs.find? (fun b => b.id = it.itemId)).map
        fun b => (⟨b.name, it.quantity, it.unitPrice, it.lineTotal, it.taxAmount⟩ : ReceiptItem)
    some ⟨t.transactionId, t.date, t.time, items,
          t.totalAmount - t.taxAmount, t.taxAmount, t.totalAmount, t.paymentMethod⟩

/-- `DatabaseDriver.create_batch_order`: insert a batch with default status
"pending"; returns the new rowid. -/
def create_batch_order (db : DB) (tableNumber : String) (customerId : Option Int) : Nat × DB :=
  let bid := db.nextBatchId
  (bid, { db with
          batches := db.batches ++ [⟨bid, tableNumber, "pending", customerId⟩],
          nextBatchId := bid + 1 })

/-- `DatabaseDriver.add_to_batch`: unconditionally insert a batch item with
default line status "pending" and return True.  Neither the batch's
existence nor its status is checked, and SQLite does not enforce the
declared foreign keys (no `PRAGMA foreign_keys` is issued). -/
def add_to_batch (db : DB) (batchId : Nat) (bevId : String) (quantity : Int)
    (notes : Option String) : Bool × DB :=
  (true,
   { db with
     batchItems := db.batchItems ++ [⟨db.nextBatchItemId, batchId, bevId, quantity, notes, "pending"⟩],
     nextBatchItemId := db.nextBatchItemId + 1 })

/-- One row of the item list built by `get_batch_order`.  The source query
selects `bi.item_id` — the `batch_items` AUTOINCREMENT rowid, not the
beverage id — and exposes it as the item's "id". -/
structure BatchViewItem where
  id : Nat
  name : String
  quantity : Int
  unitPrice : Int
  notes : Option String
  status : String
deriving DecidableEq, Repr

/-- The dict returned by `get_batch_order`. -/
structure BatchView where
  batchId : Nat
  tableNumber : String
  status : String
  customerId : Option Int
  items : List BatchViewItem
  subtotal : Int
  tax : ℚ
  total : ℚ
deriving DecidableEq, Repr

/-- `DatabaseDriver.get_batch_order`: `none` models the
`{"error": "Batch order not found"}` dict.  Items are the batch's rows
inner-joined with `bevs`; `subtotal = Σ quantity * price`, a flat 7% display
tax, `total = subtotal + tax`. -/
def get_batch_order (db : DB) (batchId : Nat) : Option BatchView :=
  match db.batches.find? (fun b => b.batchId = batchId) with
  | none => none
  | some batch =>
    let items := (db.batchItems.filter (fun bi => bi.batchId = batchId)).filterMap
      fun bi => (db.bevs.find? (fun b => b.id = bi.bevId)).map
        fun b => (⟨bi.itemId, b.name, bi.quantity, b.price, bi.notes, bi.status⟩ : BatchViewItem)
    let subtotal : Int := (items.map (fun it => it.quantity * it.unitPrice)).sum
    let tax : ℚ := (subtotal : ℚ) * (7/100)
    some ⟨batch.batchId, batch.tableNumber, batch.status, batch.customerId,
          items, subtotal, tax, (subtotal : ℚ) + tax⟩

/-- `DatabaseDriver.process_batch_to_transaction`: returns `-1` when the
batch is absent; otherwise builds transaction inputs from the batch view —
whose "id" field is the `batch_items` rowid, so the integer rowid (converted
to text by SQLite's TEXT affinity on `transaction_items.item_id` and by the
beverage lookups, modelled with `toString`) is passed where a beverage id is
expected — calls `create_transaction`, then sets the batch's status to
"completed".  The batch's current status is never checked, and no inventory
is read or written. -/
def process_batch_to_transaction (db : DB) (batchId : Nat) (paymentMethod : String)
    (dateStr timeStr : String) : Int × DB :=
  match get_batch_order db batchId with
  | none => (-1, db)
  | some batch =>
    let items : List TxnInput :=
      batch.items.map (fun it => ⟨toString it.id, it.quantity, some "pour/shot"⟩)
    let res := create_transaction db paymentMethod items none dateStr timeStr
    ((res.1 : Int),
     { res.2 with
       batches := res.2.batches.map
         (fun b => if b.batchId = batchId then { b with status := "completed" } else b) })

/-- `DatabaseDriver.finalize_batch`: the method's body starts with
`cursor = self.conn.cursor()`, but `DatabaseDriver.__init__` never assigns a
`conn` attribute (all access goes through the `_get_connection` context
manager), so every call raises `AttributeError` immediately; the enclosing
`try` catches it, prints, and returns False with no state touched.  (Its
body also queries `beverages`/`batches` tables that the schema never
creates, so it could not run even with a connection.) -/
def finalize_batch (db : DB) (_batchId : Nat) (_paymentMethod : String) : Bool × DB :=
  (false, db)

/-- `DatabaseDriver.cancel_batch`: like `finalize_batch`, the body begins
with `self.conn.cursor()` on the never-assigned `conn` attribute (and
updates a `batches` table that does not exist in the schema), so every call
raises, is caught, and returns False with no state touched. -/
def cancel_batch (db : DB) (_batchId : Nat) : Bool × DB :=
  (false, db)

/-- An output row of `get_recommendations`. -/
structure RecOut where
  id : String
  name : String
  category : String
  price : Int
  confidence : ℚ
deriving DecidableEq, Repr

/-- Descending-confidence order used by the explicit-recommendations
`ORDER BY r.confidence DESC`. -/
def confGe (a b : RecOut) : Prop := b.confidence ≤ a.confidence

instance : DecidableRel confGe :=
  fun a b => inferInstanceAs (Decidable (b.confidence ≤ a.confidence))

instance : IsTotal RecOut confGe := ⟨fun a b => le_total b.confidence a.confidence⟩

instance : IsTrans RecOut confGe := ⟨fun _ _ _ h1 h2 => le_trans h2 h1⟩

/-- Descending-sales order used by the fallback `ORDER BY sales DESC`. -/
def salesGe (a b : Bev) : Prop := b.sales ≤ a.sales

instance : DecidableRel salesGe :=
  fun a b => inferInstanceAs (Decidable (b.sales ≤ a.sales))

instance : IsTotal Bev salesGe := ⟨fun a b => le_total b.sales a.sales⟩

instance : IsTrans Bev salesGe := ⟨fun _ _ _ h1 h2 => le_trans h2 h1⟩

/-- The unordered rows of the explicit-recommendation query of
`get_recommendations`: `drink_recommendations` rows for `bevId`
inner-joined with `bevs` on the recommended id. -/
def joinedRecs (db : DB) (bevId : String) : List RecOut :=
  (db.recs.filter (fun r => r.bevId = bevId)).filterMap
    fun r => (db.bevs.find? (fun b => b.id = r.recommendedBevId)).map
      fun b => (⟨r.recommendedBevId, b.name, b.category, b.price, r.confidence⟩ : RecOut)

/-- The fallback sibling predicate of `get_recommendations`: same category
and subcategory as `bev`, excluding `bevId` itself. -/
def siblingOf (bev : Bev) (bevId : String) (b : Bev) : Bool :=
  decide (b.category = bev.category ∧ b.subcategory = bev.subcategory ∧ b.id ≠ bevId)

/-- `DatabaseDriver.get_recommendations`: explicit recommendation rows
joined with `bevs`, ordered by confidence descending, limited; when that
result is empty, look the beverage up (unknown id → `[]`) and fall back to
same-category/subcategory siblings ordered by sales descending, limited,
each with synthetic confidence 0.7.  `ORDER BY ... DESC LIMIT n` is
modelled as a stable insertion sort followed by `take`. -/
def get_recommendations (db : DB) (bevId : String) (limit : Nat) : List RecOut :=
  let recommendations := (List.insertionSort confGe (joinedRecs db bevId)).take limit
  if recommendations.isEmpty then
    match db.bevs.find? (fun b => b.id = bevId) with
    | none => []
    | some bev =>
      let similar := (List.insertionSort salesGe (db.bevs.filter (siblingOf bev bevId))).take limit
      similar.map (fun b => (⟨b.id, b.name, b.category, b.price, 7/10⟩ : RecOut))
  else recommendations

/-! ### The function-call surface of `AssistantFnc` (src/api.py) -/

/-- Result of `AssistantFnc.add_to_batch`, one constructor per returned
message. -/
inductive AddToBatchResult where
  | noActiveBatch
  | bevNotFound (requested : String)
  | added (resolvedId : String) (bevName : String)
deriving DecidableEq, Repr

/-- The literal-then-derived beverage resolution used by
`AssistantFnc.add_to_batch` (and `lookup_bev`): try the argument as an id,
then retry with `generate_id` of it, rebinding the id to the derived one on
the fallback hit. -/
def resolve_bev (db : DB) (bevId : String) : Option (String × Bev) :=
  match get_bev_by_id db bevId with
  | some b => some (bevId, b)
  | none =>
    match get_bev_by_id db (generate_id bevId) with
    | some b => some (generate_id bevId, b)
    | none => none

/-- `AssistantFnc.add_to_batch`: fail when no current batch id is held;
resolve the beverage literal-then-derived, failing when neither lookup
hits; otherwise call `DatabaseDriver.add_to_batch` (which always returns
True) with the resolved id. -/
def api_add_to_batch (db : DB) (currentBatchId : Option Nat) (bevId : String)
    (quantity : Int) (notes : Option String) : AddToBatchResult × DB :=
  match currentBatchId with
  | none => (.noActiveBatch, db)
  | some bid =>
    match resolve_bev db bevId with
    | none => (.bevNotFound bevId, db)
    | some (rid, b) =>
      let res := add_to_batch db bid rid quantity notes
      (.added rid b.name, res.2)

/-- An already-parsed element of the `items_json` array passed to
`AssistantFnc.create_transaction`: a dict that may lack the `id` or
`quantity` key (a non-dict element is one lacking both). -/
structure RawItem where
  id : Option String
  quantity : Option Int
  taxCategory : Option String
deriving DecidableEq, Repr

/-- The formatting loop of `AssistantFnc.create_transaction`: keep exactly
the items having both an `id` and a `quantity` key, in order. -/
def formatItems (items : List RawItem) : List TxnInput :=
  items.filterMap fun it =>
    match it.id, it.quantity with
    | some i, some q => some ⟨i, q, it.taxCategory⟩
    | _, _ => none

/-- `AssistantFnc.create_transaction`: drop unrecognizable items; when none
survive, return the "No valid items found" failure (`none`) without calling
`DatabaseDriver.create_transaction`; otherwise create the transaction and
return its id (SQLite rowids start at 1, so the id is always truthy). -/
def api_create_transaction (db : DB) (items : List RawItem) (paymentMethod : String)
    (employeeId : Option Int) (dateStr timeStr : String) : Option Nat × DB :=
  let formatted := formatItems items
  if formatted.isEmpty then (none, db)
  else
    let res := create_transaction db paymentMethod formatted employeeId dateStr timeStr
    (some res.1, res.2)

/-! ### Helper lemmas and claim theorems -/

/-- The rate table stated by the claim: 0.07 for pour/shot and glass, 0.09
for bottle, 0.10 for event, defaulting to 0.07 for any unmapped category. -/
def specRate (cat : String) : ℚ :=
  if cat = "pour/shot" then 7/100
  else if cat = "glass" then 7/100
  else if cat = "bottle" then 9/100
  else if cat = "event" then 1/10
  else 7/100

theorem seededTaxRates_lookup (k : Nat) (cat : String) :
    (match (seededTaxRates k).find? (fun r => r.taxType = cat) with
     | some r => r.rate
     | none => (7/100 : ℚ)) = specRate cat := by
  by_cases h1 : cat = "pour/shot" <;> by_cases h2 : cat = "glass" <;>
    by_cases h3 : cat = "bottle" <;> by_cases h4 : cat = "event" <;>
    simp_all [seededTaxRates, List.find?, specRate, eq_comm]

/-- C5: with the seeded rate table, `calculate_item_tax` returns
`lineTotal = unitPrice * quantity` and `taxAmount = lineTotal * rate`
with the rate 0.07 for pour/shot and glass, 0.09 for bottle, 0.10 for
event, defaulting to 0.07 for an unmapped category, and `(0, 0)` for a
beverage id absent from the catalog. -/
theorem C5_line_tax (db : DB) (k : Nat) (h : db.taxRates = seededTaxRates k)
    (bid : String) (q : Int) (cat : String) :
    calculate_item_tax db bid q cat =
      match get_bev_by_id db bid with
      | none => (0, 0)
      | some b => (((b.price * q : Int) : ℚ), ((b.price * q : Int) : ℚ) * specRate cat) := by
  unfold calculate_item_tax get_bev_by_id
  cases hb : db.bevs.find? (fun b => b.id = bid) with
  | none => rfl
  | some b =>
    rw [h, seededTaxRates_lookup]

/-- Witness for C5 at a seeded one-beverage state: a bottle line of 3 units
at price 1000 is (3000, 270), and an absent id gives (0, 0). -/
theorem C5_line_tax_witness :
    calculate_item_tax
        (initialize_tax_rates
          ⟨[⟨"mojito", "Mojito", "cocktail", "rum", 1000, 10, "", 0⟩],
           [], [], [], [], [], [], [], 1, 1, 1, 1, 1⟩)
        "mojito" 3 "bottle" = (3000, 270) ∧
    calculate_item_tax
        (initialize_tax_rates
          ⟨[⟨"mojito", "Mojito", "cocktail", "rum", 1000, 10, "", 0⟩],
           [], [], [], [], [], [], [], 1, 1, 1, 1, 1⟩)
        "absent" 3 "bottle" = (0, 0) := by
  constructor
  · rw [C5_line_tax _ 1 rfl "mojito" 3 "bottle"]
    have hb : get_bev_by_id
        (initialize_tax_rates
          ⟨[⟨"mojito", "Mojito", "cocktail", "rum", 1000, 10, "", 0⟩],
           [], [], [], [], [], [], [], 1, 1, 1, 1, 1⟩)
        "mojito" = some ⟨"mojito", "Mojito", "cocktail", "rum", 1000, 10, "", 0⟩ := rfl
    rw [hb]
    norm_num [specRate]
    rw [if_neg (by decide), if_neg (by decide)]
  · rw [C5_line_tax _ 1 rfl "absent" 3 "bottle"]
    rfl

/-- C6: a generated receipt satisfies `subtotal + tax = total` exactly
(subtotal is derived as `total_amount - tax_amount`, not stored), and a
transaction id with no stored transaction yields the not-found result
instead of a receipt. -/
theorem C6_receipt_invariant (db : DB) (tid : Nat) :
    (∀ r : Receipt, generate_receipt db tid = some r → r.subtotal + r.tax = r.total) ∧
    (db.txns.find? (fun t => t.transactionId = tid) = none → generate_receipt db tid = none) := by
  constructor
  · intro r hr
    unfold generate_receipt at hr
    cases h : db.txns.find? (fun t => t.transactionId = tid) with
    | none => rw [h] at hr; cases hr
    | some t =>
      rw [h] at hr
      have hr' : r.subtotal = t.totalAmount - t.taxAmount ∧ r.tax = t.taxAmount ∧
          r.total = t.totalAmount := by
        cases hr; exact ⟨rfl, rfl, rfl⟩
      rw [hr'.1, hr'.2.1, hr'.2.2]
      ring
  · intro h
    unfold generate_receipt
    rw [h]

/-- Witness for C6 on a one-transaction state: the receipt of transaction 1
balances, and transaction 7 (absent) is not found. -/
theorem C6_receipt_invariant_witness :
    ((generate_receipt
        ⟨[], [], [⟨1, "d", "t", 3210, 210, "cash", none⟩], [], [], [], [], [], 2, 1, 1, 1, 1⟩
        1).elim True (fun r => r.subtotal + r.tax = r.total)) ∧
    generate_receipt
        ⟨[], [], [⟨1, "d", "t", 3210, 210, "cash", none⟩], [], [], [], [], [], 2, 1, 1, 1, 1⟩
        7 = none := by
  constructor
  · cases hr : generate_receipt
        ⟨[], [], [⟨1, "d", "t", 3210, 210, "cash", none⟩], [], [], [], [], [], 2, 1, 1, 1, 1⟩ 1 with
    | none => exact trivial
    | some r =>
      exact (C6_receipt_invariant _ 1).1 r hr
  · exact (C6_receipt_invariant _ 7).2 (by decide)

theorem find?_map_upsert (l : List Bev) (id : String) (b : Bev) (hb : b.id = id)
    (hex : l.any (fun r => r.id = id) = true) :
    (l.map (fun r => if r.id = id then b else r)).find? (fun r => r.id = id) = some b := by
  induction l with
  | nil => simp at hex
  | cons r rs ih =>
    rw [List.map_cons]
    by_cases hr : r.id = id
    · rw [if_pos hr]
      exact List.find?_cons_of_pos _ (by simp [hb])
    · rw [if_neg hr, List.find?_cons_of_neg _ (by simp [hr])]
      apply ih
      rw [List.any_cons] at hex
      simpa [hr] using hex

theorem find?_append_single (l : List Bev) (id : String) (b : Bev) (hb : b.id = id)
    (hex : l.any (fun r => r.id = id) = false) :
    (l ++ [b]).find? (fun r => r.id = id) = some b := by
  induction l with
  | nil =>
    rw [List.nil_append]
    exact List.find?_cons_of_pos _ (by simp [hb])
  | cons r rs ih =>
    rw [List.any_cons] at hex
    have hr : ¬ r.id = id := by
      intro hc
      simp [hc] at hex
    rw [List.cons_append, List.find?_cons_of_neg _ (by simp [hr])]
    apply ih
    simpa [hr] using hex

theorem map_upsert_idem (l : List Bev) (id : String) (b : Bev) (hb : b.id = id) :
    (l.map (fun r => if r.id = id then b else r)).map (fun r => if r.id = id then b else r)
      = l.map (fun r => if r.id = id then b else r) := by
  induction l with
  | nil => rfl
  | cons r rs ih =>
    by_cases hr : r.id = id <;> simp [hr, hb, ih]

theorem map_upsert_of_not_exists (l : List Bev) (id : String) (b : Bev) (hb : b.id = id)
    (hex : l.any (fun r => r.id = id) = false) :
    (l ++ [b]).map (fun r => if r.id = id then b else r) = l ++ [b] := by
  induction l with
  | nil => simp [hb]
  | cons r rs ih =>
    simp only [List.any_cons, Bool.or_eq_false_iff, decide_eq_false_iff_not] at hex
    simp only [List.cons_append, List.map_cons]
    rw [if_neg (by simpa using hex.1)]
    rw [ih (by simpa using hex.2)]

theorem bev_exists_of_find? (db : DB) (id : String) (b : Bev)
    (h : get_bev_by_id db id = some b) : bev_exists db id = true := by
  unfold get_bev_by_id at h
  unfold bev_exists
  rw [List.any_eq_true]
  refine ⟨b, List.mem_of_find?_eq_some h, ?_⟩
  have hp := List.find?_some h
  simpa using hp

theorem create_bev_exists_eq (db : DB) (id name category subcategory : String)
    (price inventory : Int) (image : String) (sales : Int)
    (hex : bev_exists db id = true) :
    create_bev db id name category subcategory price inventory image sales
      = (⟨id, name, category, subcategory, price, inventory, image, sales⟩,
         { db with bevs := db.bevs.map (fun r =>
             if r.id = id
             then ⟨id, name, category, subcategory, price, inventory, image, sales⟩
             else r) }) := by
  unfold create_bev
  rw [if_pos hex]

theorem create_bev_not_exists_eq (db : DB) (id name category subcategory : String)
    (price inventory : Int) (image : String) (sales : Int)
    (hex : bev_exists db id = false) :
    create_bev db id name category subcategory price inventory image sales
      = (⟨id, name, category, subcategory, price, inventory, image, sales⟩,
         { db with bevs :=
             db.bevs ++ [⟨id, name, category, subcategory, price, inventory, image, sales⟩] }) := by
  unfold create_bev
  rw [if_neg (by simp [hex])]

/-- C8: `create_bev` returns the record built from its arguments;
`get_bev_by_id` then returns that exact record (round trip of all fields);
upserting the same id with the same data again is the identity on the state
(idempotence); an absent id is inserted; a present id has every field of
its row overwritten. -/
theorem C8_upsert_roundtrip (db : DB) (id name category subcategory : String)
    (price inventory : Int) (image : String) (sales : Int) :
    (create_bev db id name category subcategory price inventory image sales).1
      = ⟨id, name, category, subcategory, price, inventory, image, sales⟩ ∧
    get_bev_by_id (create_bev db id name category subcategory price inventory image sales).2 id
      = some (create_bev db id name category subcategory price inventory image sales).1 ∧
    create_bev (create_bev db id name category subcategory price inventory image sales).2
        id name category subcategory price inventory image sales
      = create_bev db id name category subcategory price inventory image sales ∧
    (bev_exists db id = false →
      (create_bev db id name category subcategory price inventory image sales).2.bevs
        = db.bevs ++ [(create_bev db id name category subcategory price inventory image sales).1]) ∧
    (bev_exists db id = true →
      (create_bev db id name category subcategory price inventory image sales).2.bevs
        = db.bevs.map (fun r =>
            if r.id = id
            then (create_bev db id name category subcategory price inventory image sales).1
            else r)) := by
  by_cases hex : bev_exists db id
  · have h1 := create_bev_exists_eq db id name category subcategory price inventory image sales hex
    have hfind : get_bev_by_id
        (create_bev db id name category subcategory price inventory image sales).2 id
          = some ⟨id, name, category, subcategory, price, inventory, image, sales⟩ := by
      rw [h1]
      exact find?_map_upsert db.bevs id _ rfl hex
    have hex2 : bev_exists
        (create_bev db id name category subcategory price inventory image sales).2 id = true :=
      bev_exists_of_find? _ id _ hfind
    have h2 := create_bev_exists_eq
      (create_bev db id name category subcategory price inventory image sales).2
      id name category subcategory price inventory image sales hex2
    refine ⟨by rw [h1], by rw [hfind, h1], ?_, ?_, ?_⟩
    · rw [h2, h1]
      simp only [Prod.mk.injEq, true_and]
      congr 1
      exact map_upsert_idem db.bevs id _ rfl
    · intro hc
      rw [hex] at hc
      cases hc
    · intro _
      rw [h1]
  · have hexf : bev_exists db id = false := by simpa using hex
    have h1 := create_bev_not_exists_eq db id name category subcategory price inventory image sales hexf
    have hfind : get_bev_by_id
        (create_bev db id name category subcategory price inventory image sales).2 id
          = some ⟨id, name, category, subcategory, price, inventory, image, sales⟩ := by
      rw [h1]
      exact find?_append_single db.bevs id _ rfl hexf
    have hex2 : bev_exists
        (create_bev db id name category subcategory price inventory image sales).2 id = true :=
      bev_exists_of_find? _ id _ hfind
    have h2 := create_bev_exists_eq
      (create_bev db id name category subcategory price inventory image sales).2
      id name category subcategory price inventory image sales hex2
    refine ⟨by rw [h1], by rw [hfind, h1], ?_, ?_, ?_⟩
    · rw [h2, h1]
      simp only [Prod.mk.injEq, true_and]
      congr 1
      exact map_upsert_of_not_exists db.bevs id _ rfl hexf
    · intro _
      rw [h1]
    · intro hc
      rw [hexf] at hc
      cases hc

/-- Witness for C8 at a state already containing the id (overwrite branch)
and at one not containing it (insert branch). -/
theorem C8_upsert_roundtrip_witness :
    get_bev_by_id
        (create_bev
          ⟨[⟨"mojito", "Old", "x", "y", 1, 1, "", 1⟩], [], [], [], [], [], [], [], 1, 1, 1, 1, 1⟩
          "mojito" "Mojito" "cocktail" "rum" 1000 10 "" 0).2 "mojito"
      = some ⟨"mojito", "Mojito", "cocktail", "rum", 1000, 10, "", 0⟩ ∧
    (create_bev
        ⟨[], [], [], [], [], [], [], [], 1, 1, 1, 1, 1⟩
        "mojito" "Mojito" "cocktail" "rum" 1000 10 "" 0).2.bevs
      = [⟨"mojito", "Mojito", "cocktail", "rum", 1000, 10, "", 0⟩] := by
  constructor
  · have h := (C8_upsert_roundtrip
      ⟨[⟨"mojito", "Old", "x", "y", 1, 1, "", 1⟩], [], [], [], [], [], [], [], 1, 1, 1, 1, 1⟩
      "mojito" "Mojito" "cocktail" "rum" 1000 10 "" 0).2.1
    rw [h]
    decide
  · have h := (C8_upsert_roundtrip
      ⟨[], [], [], [], [], [], [], [], 1, 1, 1, 1, 1⟩
      "mojito" "Mojito" "cocktail" "rum" 1000 10 "" 0).2.2.2.1 (by decide)
    rw [h]
    decide

theorem processItem_newItems (db0 : DB) (tid : Nat) (acc : ItemsAcc) (it : TxnInput) :
    (processItem db0 tid acc it).newItems
      = acc.newItems ++ [mkTxnItem db0 tid acc.nextItemId it] := rfl

theorem processItem_total (db0 : DB) (tid : Nat) (acc : ItemsAcc) (it : TxnInput) :
    (processItem db0 tid acc it).total
      = acc.total + (mkTxnItem db0 tid acc.nextItemId it).lineTotal := rfl

theorem processItem_tax (db0 : DB) (tid : Nat) (acc : ItemsAcc) (it : TxnInput) :
    (processItem db0 tid acc it).tax
      = acc.tax + (mkTxnItem db0 tid acc.nextItemId it).taxAmount := rfl

theorem mkTxnItem_unitPrice_of_nonpos (db0 : DB) (tid rowId : Nat) (it : TxnInput)
    (h : it.quantity ≤ 0) : (mkTxnItem db0 tid rowId it).unitPrice = 0 := by
  have hn : ¬ it.quantity > 0 := by omega
  simp [mkTxnItem, hn]

/-- Structure of `create_transaction`'s item loop: starting from any
accumulator it appends one `transaction_items` row per input, carrying the
input's id and quantity and the enclosing transaction's id, stores unit
price 0 for non-positive quantities, and accumulates exactly the sums of
the rows' line totals and tax amounts. -/
theorem foldl_processItem_spec (db0 : DB) (tid : Nat) (items : List TxnInput) :
    ∀ acc : ItemsAcc, ∃ new : List TxnItem,
      (items.foldl (processItem db0 tid) acc).newItems = acc.newItems ++ new ∧
      new.map (fun it => (it.itemId, it.quantity))
        = items.map (fun i => (i.id, i.quantity)) ∧
      (∀ it ∈ new, it.transactionId = tid ∧ (it.quantity ≤ 0 → it.unitPrice = 0)) ∧
      (items.foldl (processItem db0 tid) acc).total
        = acc.total + (new.map TxnItem.lineTotal).sum ∧
      (items.foldl (processItem db0 tid) acc).tax
        = acc.tax + (new.map TxnItem.taxAmount).sum := by
  induction items with
  | nil =>
    intro acc
    exact ⟨[], by simp, rfl, by simp, by simp, by simp⟩
  | cons i rest ih =>
    intro acc
    obtain ⟨new', h1, h2, h3, h4, h5⟩ := ih (processItem db0 tid acc i)
    refine ⟨mkTxnItem db0 tid acc.nextItemId i :: new', ?_, ?_, ?_, ?_, ?_⟩
    · rw [List.foldl_cons, h1, processItem_newItems]
      simp
    · simp only [List.map_cons, h2]
      rfl
    · intro it hit
      rcases List.mem_cons.mp hit with hh | hh

      · subst hh
        exact ⟨rfl, mkTxnItem_unitPrice_of_nonpos db0 tid acc.nextItemId i⟩
      · exact h3 it hh
    · rw [List.foldl_cons, h4, processItem_total]
      simp only [List.map_cons, List.sum_cons]
      ring
    · rw [List.foldl_cons, h5, processItem_tax]
      simp only [List.map_cons, List.sum_cons]
      ring

/-- The transaction items stored for transaction `tid`. -/
def txnItemsFor (db : DB) (tid : Nat) : List TxnItem :=
  db.txnItems.filter (fun it => it.transactionId = tid)

/-- Every stored transaction's totals are the sums of the line totals and
tax amounts of its stored items. -/
def txnsConsistent (db : DB) : Prop :=
  ∀ T ∈ db.txns,
    T.totalAmount = ((txnItemsFor db T.transactionId).map TxnItem.lineTotal).sum ∧
    T.taxAmount = ((txnItemsFor db T.transactionId).map TxnItem.taxAmount).sum

/-- AUTOINCREMENT discipline: every stored transaction id (also those
referenced by stored items) is below the next id to be handed out. -/
def idsFresh (db : DB) : Prop :=
  (∀ T ∈ db.txns, T.transactionId < db.nextTxnId) ∧
  (∀ it ∈ db.txnItems, it.transactionId < db.nextTxnId)

theorem filter_txnId_all (l : List TxnItem) (tid : Nat)
    (h : ∀ it ∈ l, it.transactionId = tid) :
    l.filter (fun it => it.transactionId = tid) = l := by
  induction l with
  | nil => rfl
  | cons a l ih =>
    rw [List.filter_cons]
    rw [if_pos (by simpa using h a (List.mem_cons_self a l))]
    rw [ih (fun it hit => h it (List.mem_cons_of_mem a hit))]

theorem filter_txnId_none (l : List TxnItem) (tid : Nat)
    (h : ∀ it ∈ l, it.transactionId ≠ tid) :
    l.filter (fun it => it.transactionId = tid) = [] := by
  induction l with
  | nil => rfl
  | cons a l ih =>
    rw [List.filter_cons]
    rw [if_neg (by simpa using h a (List.mem_cons_self a l))]
    exact ih (fun it hit => h it (List.mem_cons_of_mem a hit))

/-- What one `create_transaction` call does to the state: it returns the
next transaction id, appends one transaction row whose totals are the sums
of the appended items' line totals and tax amounts, appends one item row
per input carrying the input's id and quantity, stores unit price 0 for
non-positive quantities, and touches no beverage row. -/
theorem create_transaction_spec (db : DB) (pm : String) (items : List TxnInput)
    (emp : Option Int) (d t : String) :
    ∃ new : List TxnItem,
      (create_transaction db pm items emp d t).1 = db.nextTxnId ∧
      (create_transaction db pm items emp d t).2.txns
        = db.txns ++ [⟨db.nextTxnId, d, t, (new.map TxnItem.lineTotal).sum,
            (new.map TxnItem.taxAmount).sum, pm, emp⟩] ∧
      (create_transaction db pm items emp d t).2.txnItems = db.txnItems ++ new ∧
      new.map (fun it => (it.itemId, it.quantity))
        = items.map (fun i => (i.id, i.quantity)) ∧
      (∀ it ∈ new, it.transactionId = db.nextTxnId ∧ (it.quantity ≤ 0 → it.unitPrice = 0)) ∧
      (create_transaction db pm items emp d t).2.bevs = db.bevs ∧
      (create_transaction db pm items emp d t).2.nextTxnId = db.nextTxnId + 1 := by
  obtain ⟨new, h1, h2, h3, h4, h5⟩ :=
    foldl_processItem_spec db db.nextTxnId items ⟨[], [], db.nextTxnItemId, 0, 0⟩
  simp only [List.nil_append] at h1
  refine ⟨new, rfl, ?_, ?_, h2, h3, rfl, rfl⟩
  · show db.txns ++ [⟨db.nextTxnId, d, t,
        (items.foldl (processItem db db.nextTxnId) ⟨[], [], db.nextTxnItemId, 0, 0⟩).total,
        (items.foldl (processItem db db.nextTxnId) ⟨[], [], db.nextTxnItemId, 0, 0⟩).tax,
        pm, emp⟩] = _
    rw [h4, h5]
    norm_num
  · show db.txnItems
        ++ (items.foldl (processItem db db.nextTxnId) ⟨[], [], db.nextTxnItemId, 0, 0⟩).newItems
      = db.txnItems ++ new
    rw [h1]

/-- C10: after any `create_transaction` call on a consistent state, every
stored transaction's `total_amount` and `tax_amount` (the new one included)
are exactly the sums of its stored items' `line_total` and `tax_amount`
values — `create_transaction` is the only writer of these tables and never
mutates an existing transaction — and an item with quantity 0 stores
`unit_price` 0 instead of raising a division error. -/
theorem C10_transaction_totals (db : DB) (pm : String) (items : List TxnInput)
    (emp : Option Int) (d t : String)
    (hfresh : idsFresh db) (hcons : txnsConsistent db) :
    txnsConsistent (create_transaction db pm items emp d t).2 ∧
    idsFresh (create_transaction db pm items emp d t).2 ∧
    (∀ it ∈ txnItemsFor (create_transaction db pm items emp d t).2
        (create_transaction db pm items emp d t).1,
       it.quantity = 0 → it.unitPrice = 0) := by
  obtain ⟨new, e1, e2, e3, e4, e5, e6, e7⟩ := create_transaction_spec db pm items emp d t
  have hnewT : ∀ it ∈ new, it.transactionId = db.nextTxnId := fun it h => (e5 it h).1
  have hfor_new : txnItemsFor (create_transaction db pm items emp d t).2 db.nextTxnId = new := by
    unfold txnItemsFor
    rw [e3, List.filter_append]
    rw [filter_txnId_none db.txnItems db.nextTxnId
      (fun it hit => Nat.ne_of_lt (hfresh.2 it hit))]
    rw [filter_txnId_all new db.nextTxnId hnewT]
    rfl
  have hfor_old : ∀ tid', tid' ≠ db.nextTxnId →
      txnItemsFor (create_transaction db pm items emp d t).2 tid' = txnItemsFor db tid' := by
    intro tid' hne
    unfold txnItemsFor
    rw [e3, List.filter_append]
    rw [filter_txnId_none new tid' (fun it hit => by rw [hnewT it hit]; exact Ne.symm hne)]
    rw [List.append_nil]
  refine ⟨?_, ?_, ?_⟩
  · intro T hT
    rw [e2] at hT
    rcases List.mem_append.mp hT with hT | hT
    · have hne : T.transactionId ≠ db.nextTxnId := Nat.ne_of_lt (hfresh.1 T hT)
      rw [hfor_old _ hne]
      exact hcons T hT
    · rcases List.mem_singleton.mp hT with rfl
      refine ⟨?_, ?_⟩
      · show (new.map TxnItem.lineTotal).sum = _
        rw [show (⟨db.nextTxnId, d, t, (new.map TxnItem.lineTotal).sum,
          (new.map TxnItem.taxAmount).sum, pm, emp⟩ : Txn).transactionId = db.nextTxnId from rfl]
        rw [hfor_new]
      · show (new.map TxnItem.taxAmount).sum = _
        rw [show (⟨db.nextTxnId, d, t, (new.map TxnItem.lineTotal).sum,
          (new.map TxnItem.taxAmount).sum, pm, emp⟩ : Txn).transactionId = db.nextTxnId from rfl]
        rw [hfor_new]
  · constructor
    · intro T hT
      rw [e2] at hT
      rw [e7]
      rcases List.mem_append.mp hT with hT | hT
      · exact Nat.lt_succ_of_lt (hfresh.1 T hT)
      · rcases List.mem_singleton.mp hT with rfl
        exact Nat.lt_succ_self _
    · intro it hit
      rw [e3] at hit
      rw [e7]
      rcases List.mem_append.mp hit with hit | hit
      · exact Nat.lt_succ_of_lt (hfresh.2 it hit)
      · rw [hnewT it hit]
        exact Nat.lt_succ_self _
  · intro it hit hq
    rw [e1, hfor_new] at hit
    exact (e5 it hit).2 (le_of_eq hq)

/-- Witness for C10: a one-item call (quantity 0) on the empty state. -/
theorem C10_transaction_totals_witness :
    txnsConsistent (create_transaction
        ⟨[⟨"mojito", "Mojito", "cocktail", "rum", 1000, 10, "", 0⟩],
         [], [], [], [], [], [], [], 1, 1, 1, 1, 1⟩
        "cash" [⟨"mojito", 0, none⟩] none "d" "t").2 ∧
    (∀ it ∈ txnItemsFor (create_transaction
        ⟨[⟨"mojito", "Mojito", "cocktail", "rum", 1000, 10, "", 0⟩],
         [], [], [], [], [], [], [], 1, 1, 1, 1, 1⟩
        "cash" [⟨"mojito", 0, none⟩] none "d" "t").2
        (create_transaction
        ⟨[⟨"mojito", "Mojito", "cocktail", "rum", 1000, 10, "", 0⟩],
         [], [], [], [], [], [], [], 1, 1, 1, 1, 1⟩
        "cash" [⟨"mojito", 0, none⟩] none "d" "t").1,
       it.quantity = 0 → it.unitPrice = 0) := by
  have h := C10_transaction_totals
    ⟨[⟨"mojito", "Mojito", "cocktail", "rum", 1000, 10, "", 0⟩],
     [], [], [], [], [], [], [], 1, 1, 1, 1, 1⟩
    "cash" [⟨"mojito", 0, none⟩] none "d" "t"
    ⟨fun T hT => absurd hT (List.not_mem_nil T), fun it hit => absurd hit (List.not_mem_nil it)⟩
    (fun T hT => absurd hT (List.not_mem_nil T))
  exact ⟨h.1, h.2.2⟩

/-- C7: the direct transaction entry point drops the items lacking an id or
quantity; when every item is dropped it fails with the invalid-input result
and writes nothing; otherwise it creates exactly one transaction row whose
items are exactly the surviving inputs (so no empty transaction is ever
created through this entry point). -/
theorem C7_direct_record (db : DB) (items : List RawItem) (pm : String)
    (emp : Option Int) (d t : String) :
    (formatItems items = [] → api_create_transaction db items pm emp d t = (none, db)) ∧
    (formatItems items ≠ [] →
       (api_create_transaction db items pm emp d t).1 = some db.nextTxnId ∧
       ∃ T : Txn, ∃ new : List TxnItem,
         (api_create_transaction db items pm emp d t).2.txns = db.txns ++ [T] ∧
         T.transactionId = db.nextTxnId ∧
         (api_create_transaction db items pm emp d t).2.txnItems = db.txnItems ++ new ∧
         new.map (fun it => (it.itemId, it.quantity))
           = (formatItems items).map (fun i => (i.id, i.quantity)) ∧
         new ≠ []) := by
  constructor
  · intro h
    unfold api_create_transaction
    rw [h]
    rfl
  · intro h
    have hne : (formatItems items).isEmpty = false := by
      cases hfi : formatItems items with
      | nil => exact absurd hfi h
      | cons a l => rfl
    obtain ⟨new, e1, e2, e3, e4, e5, e6, e7⟩ :=
      create_transaction_spec db pm (formatItems items) emp d t
    have happ : api_create_transaction db items pm emp d t
        = (some (create_transaction db pm (formatItems items) emp d t).1,
           (create_transaction db pm (formatItems items) emp d t).2) := by
      unfold api_create_transaction
      simp [hne]
    rw [happ]
    refine ⟨by rw [e1], ⟨⟨db.nextTxnId, d, t, (new.map TxnItem.lineTotal).sum,
      (new.map TxnItem.taxAmount).sum, pm, emp⟩, new, e2, rfl, e3, e4, ?_⟩⟩
    intro hnil
    rw [hnil, List.map_nil] at e4
    exact h (List.map_eq_nil_iff.mp e4.symm)

/-- Witness for C7: a call whose items all lack keys is rejected with the
state untouched; a mixed call keeps exactly the well-formed item. -/
theorem C7_direct_record_witness :
    api_create_transaction
        ⟨[], [], [], [], [], [], [], [], 1, 1, 1, 1, 1⟩
        [⟨none, some 2, none⟩, ⟨some "x", none, none⟩] "cash" none "d" "t"
      = (none, ⟨[], [], [], [], [], [], [], [], 1, 1, 1, 1, 1⟩) ∧
    ((api_create_transaction
        ⟨[], [], [], [], [], [], [], [], 1, 1, 1, 1, 1⟩
        [⟨some "mojito", some 2, none⟩, ⟨none, none, none⟩] "cash" none "d" "t").1
      = some 1 ∧
     ∃ T : Txn, ∃ new : List TxnItem,
       (api_create_transaction
          ⟨[], [], [], [], [], [], [], [], 1, 1, 1, 1, 1⟩
          [⟨some "mojito", some 2, none⟩, ⟨none, none, none⟩] "cash" none "d" "t").2.txns
         = [] ++ [T] ∧
       T.transactionId = 1 ∧
       (api_create_transaction
          ⟨[], [], [], [], [], [], [], [], 1, 1, 1, 1, 1⟩
          [⟨some "mojito", some 2, none⟩, ⟨none, none, none⟩] "cash" none "d" "t").2.txnItems
         = [] ++ new ∧
       new.map (fun it => (it.itemId, it.quantity))
         = (formatItems [⟨some "mojito", some 2, none⟩, ⟨none, none, none⟩]).map
             (fun i => (i.id, i.quantity)) ∧
       new ≠ []) := by
  constructor
  · exact (C7_direct_record
      ⟨[], [], [], [], [], [], [], [], 1, 1, 1, 1, 1⟩
      [⟨none, some 2, none⟩, ⟨some "x", none, none⟩] "cash" none "d" "t").1 rfl
  · exact (C7_direct_record
      ⟨[], [], [], [], [], [], [], [], 1, 1, 1, 1, 1⟩
      [⟨some "mojito", some 2, none⟩, ⟨none, none, none⟩] "cash" none "d" "t").2
      (by decide)

theorem pairwise_of_forall_rel {α : Type} {R : α → α → Prop} (h : ∀ a b, R a b) :
    ∀ l : List α, l.Pairwise R
  | [] => List.Pairwise.nil
  | a :: l => List.Pairwise.cons (fun b _ => h a b) (pairwise_of_forall_rel h l)

theorem get_recommendations_explicit (db : DB) (bevId : String) (limit : Nat)
    (h : ((List.insertionSort confGe (joinedRecs db bevId)).take limit).isEmpty = false) :
    get_recommendations db bevId limit
      = (List.insertionSort confGe (joinedRecs db bevId)).take limit := by
  unfold get_recommendations
  simp [h]

theorem get_recommendations_unknown (db : DB) (bevId : String) (limit : Nat)
    (h : ((List.insertionSort confGe (joinedRecs db bevId)).take limit).isEmpty = true)
    (hb : db.bevs.find? (fun b => b.id = bevId) = none) :
    get_recommendations db bevId limit = [] := by
  unfold get_recommendations
  simp [h, hb]

theorem get_recommendations_fallback (db : DB) (bevId : String) (limit : Nat) (bv : Bev)
    (h : ((List.insertionSort confGe (joinedRecs db bevId)).take limit).isEmpty = true)
    (hb : db.bevs.find? (fun b => b.id = bevId) = some bv) :
    get_recommendations db bevId limit
      = ((List.insertionSort salesGe (db.bevs.filter (siblingOf bv bevId))).take limit).map
          (fun b => ⟨b.id, b.name, b.category, b.price, 7/10⟩) := by
  unfold get_recommendations
  simp [h, hb]

theorem mem_joinedRecs (db : DB) (bevId : String) (x : RecOut)
    (hx : x ∈ joinedRecs db bevId) :
    ∃ r, r ∈ db.recs ∧ r.bevId = bevId ∧
      ∃ b, b ∈ db.bevs ∧ b.id = r.recommendedBevId ∧
        x = ⟨r.recommendedBevId, b.name, b.category, b.price, r.confidence⟩ := by
  unfold joinedRecs at hx
  obtain ⟨r, hr, hmap⟩ := List.mem_filterMap.mp hx
  obtain ⟨hrmem, hrid⟩ := List.mem_filter.mp hr
  obtain ⟨b, hfind, hxb⟩ := Option.map_eq_some'.mp hmap
  refine ⟨r, hrmem, by simpa using hrid, b, List.mem_of_find?_eq_some hfind, ?_, hxb.symm⟩
  simpa using List.find?_some hfind

/-- C9: the recommendation list is always ordered by confidence descending;
when any explicit recommendation row for the beverage joins the catalog,
every returned entry comes from such a row; an id with no explicit rows and
no catalog row yields the empty sequence (not an error); and with no
explicit rows but a catalog row the result is a sales-descending list of
same-category/subcategory siblings (the beverage itself excluded), each
with synthetic confidence 0.7. -/
theorem C9_recommendations (db : DB) (bevId : String) (limit : Nat) :
    List.Sorted confGe (get_recommendations db bevId limit) ∧
    (∀ x ∈ get_recommendations db bevId limit,
       joinedRecs db bevId ≠ [] →
       ∃ r, r ∈ db.recs ∧ r.bevId = bevId ∧
         ∃ b, b ∈ db.bevs ∧ b.id = r.recommendedBevId ∧
           x = ⟨r.recommendedBevId, b.name, b.category, b.price, r.confidence⟩) ∧
    (joinedRecs db bevId = [] → db.bevs.find? (fun b => b.id = bevId) = none →
       get_recommendations db bevId limit = []) ∧
    (∀ bv : Bev, joinedRecs db bevId = [] →
       db.bevs.find? (fun b => b.id = bevId) = some bv →
       ∃ sibs : List Bev, List.Sorted salesGe sibs ∧
         (∀ b ∈ sibs, siblingOf bv bevId b = true) ∧
         get_recommendations db bevId limit
           = sibs.map (fun b => ⟨b.id, b.name, b.category, b.price, 7/10⟩)) := by
  refine ⟨?_, ?_, ?_, ?_⟩
  · cases hh : ((List.insertionSort confGe (joinedRecs db bevId)).take limit).isEmpty with
    | false =>
      rw [get_recommendations_explicit db bevId limit hh]
      exact List.Pairwise.sublist (List.take_sublist limit _)
        (List.sorted_insertionSort confGe _)
    | true =>
      cases hb : db.bevs.find? (fun b => b.id = bevId) with
      | none =>
        rw [get_recommendations_unknown db bevId limit hh hb]
        exact List.Pairwise.nil
      | some bv =>
        rw [get_recommendations_fallback db bevId limit bv hh hb]
        exact List.pairwise_map.mpr (pairwise_of_forall_rel (fun a b => le_refl ((7 : ℚ)/10)) _)
  · intro x hx hne
    cases hh : ((List.insertionSort confGe (joinedRecs db bevId)).take limit).isEmpty with
    | false =>
      rw [get_recommendations_explicit db bevId limit hh] at hx
      have hx2 : x ∈ List.insertionSort confGe (joinedRecs db bevId) :=
        (List.take_sublist limit _).subset hx
      exact mem_joinedRecs db bevId x ((List.perm_insertionSort confGe _).mem_iff.mp hx2)
    | true =>
      exfalso
      have hnil := List.isEmpty_iff.mp hh
      rcases List.take_eq_nil_iff.mp hnil with h0 | hsnil
      · -- limit = 0: both branches return the empty list, contradicting hx
        subst h0
        cases hb : db.bevs.find? (fun b => b.id = bevId) with
        | none =>
          rw [get_recommendations_unknown db bevId 0 hh hb] at hx
          exact absurd hx (List.not_mem_nil x)
        | some bv =>
          rw [get_recommendations_fallback db bevId 0 bv hh hb] at hx
          simp at hx
      · have p := (List.perm_insertionSort confGe (joinedRecs db bevId)).symm
        rw [hsnil] at p
        exact hne p.eq_nil
  · intro hj hb
    have hh : ((List.insertionSort confGe (joinedRecs db bevId)).take limit).isEmpty = true := by
      rw [hj]
      simp [List.insertionSort]
    exact get_recommendations_unknown db bevId limit hh hb
  · intro bv hj hb
    have hh : ((List.insertionSort confGe (joinedRecs db bevId)).take limit).isEmpty = true := by
      rw [hj]
      simp [List.insertionSort]
    refine ⟨(List.insertionSort salesGe (db.bevs.filter (siblingOf bv bevId))).take limit,
      ?_, ?_, get_recommendations_fallback db bevId limit bv hh hb⟩
    · exact List.Pairwise.sublist (List.take_sublist limit _)
        (List.sorted_insertionSort salesGe _)
    · intro b hbm
      have hb2 : b ∈ List.insertionSort salesGe (db.bevs.filter (siblingOf bv bevId)) :=
        (List.take_sublist limit _).subset hbm
      have hb3 : b ∈ db.bevs.filter (siblingOf bv bevId) :=
        (List.perm_insertionSort salesGe _).mem_iff.mp hb2
      exact (List.mem_filter.mp hb3).2

/-- The catalog used by the C9 witness: beverage "a" with two
same-category/subcategory siblings and no explicit recommendation rows. -/
def dbRecFallback : DB :=
  ⟨[⟨"a", "A", "cocktail", "rum", 100, 1, "", 0⟩,
    ⟨"b2", "B2", "cocktail", "rum", 500, 5, "", 9⟩,
    ⟨"b3", "B3", "cocktail", "rum", 700, 5, "", 4⟩],
   [], [], [], [], [], [], [], 1, 1, 1, 1, 1⟩

/-- A catalog with one explicit recommendation row, for the C9 witness. -/
def dbRecExplicit : DB :=
  ⟨[⟨"a", "A", "cocktail", "rum", 100, 1, "", 0⟩,
    ⟨"b2", "B2", "cocktail", "rum", 500, 5, "", 9⟩],
   [], [], [], [], [], [], [⟨"a", "b2", 9/10⟩], 1, 1, 1, 1, 1⟩

/-- Witness for C9: an unknown id yields `[]`; beverage "a" (no explicit
rows) falls back to a sales-sorted sibling list with confidence 0.7; and
with an explicit row every returned entry is explicit-sourced. -/
theorem C9_recommendations_witness :
    get_recommendations dbRecFallback "zzz" 3 = [] ∧
    (∃ sibs : List Bev, List.Sorted salesGe sibs ∧
       (∀ b ∈ sibs, siblingOf ⟨"a", "A", "cocktail", "rum", 100, 1, "", 0⟩ "a" b = true) ∧
       get_recommendations dbRecFallback "a" 3
         = sibs.map (fun b => ⟨b.id, b.name, b.category, b.price, 7/10⟩)) ∧
    (∃ r, r ∈ dbRecExplicit.recs ∧ r.bevId = "a" ∧
       ∃ b, b ∈ dbRecExplicit.bevs ∧ b.id = r.recommendedBevId ∧
         (⟨"b2", "B2", "cocktail", 500, 9/10⟩ : RecOut)
           = ⟨r.recommendedBevId, b.name, b.category, b.price, r.confidence⟩) := by
  refine ⟨?_, ?_, ?_⟩
  · exact (C9_recommendations dbRecFallback "zzz" 3).2.2.1 rfl rfl
  · exact (C9_recommendations dbRecFallback "a" 3).2.2.2
      ⟨"a", "A", "cocktail", "rum", 100, 1, "", 0⟩ rfl rfl
  · refine (C9_recommendations dbRecExplicit "a" 3).2.1
      ⟨"b2", "B2", "cocktail", 500, 9/10⟩ ?_ (by decide)
    exact List.mem_singleton_self _

/-- Beverage "mojito" stocking 3 units, with a pending batch ordering 5 of
it: the claim's insufficient-inventory scenario. -/
def dbShortStock : DB :=
  ⟨[⟨"mojito", "Mojito", "cocktail", "rum", 1000, 3, "", 0⟩], [], [], [], [],
   [⟨1, "5", "pending", none⟩], [⟨1, 1, "mojito", 5, none, "pending"⟩], [], 1, 1, 2, 2, 1⟩

/-- C1 (behaviour of the code at the claim's failing input): finalizing a
pending batch that orders 5 units of a beverage stocking only 3 does not
fail — the live path creates a transaction (id 1) and marks the batch
completed, with inventory left untouched rather than checked — while the
dead `finalize_batch` variant returns False with no state change regardless
of stock. -/
theorem C1_finalize_ignores_inventory :
    (process_batch_to_transaction dbShortStock 1 "cash" "d" "t").1 = 1 ∧
    (process_batch_to_transaction dbShortStock 1 "cash" "d" "t").2.txns.length = 1 ∧
    ((process_batch_to_transaction dbShortStock 1 "cash" "d" "t").2.batches.find?
        (fun b => b.batchId = 1)).map OrderBatch.status = some "completed" ∧
    ((process_batch_to_transaction dbShortStock 1 "cash" "d" "t").2.bevs.find?
        (fun b => b.id = "mojito")).map Bev.inventory = some 3 ∧
    finalize_batch dbShortStock 1 "cash" = (false, dbShortStock) := by
  decide

/-- Beverage "mojito" stocking 10 units, with a pending batch ordering 3:
the claim's successful-finalize scenario. -/
def dbAmpleStock : DB :=
  ⟨[⟨"mojito", "Mojito", "cocktail", "rum", 1000, 10, "", 0⟩], [], [], [], [],
   [⟨1, "5", "pending", none⟩], [⟨1, 1, "mojito", 3, none, "pending"⟩], [], 1, 1, 2, 2, 1⟩

/-- C2 (behaviour of the code at the claim's failing input): a successful
finalize of a batch ordering 3 of a beverage stocking 10 leaves inventory
at 10 and sales at 0 — the live path neither decrements inventory nor
increments the sales counter (the claim requires 7 and 3). -/
theorem C2_finalize_leaves_inventory :
    (process_batch_to_transaction dbAmpleStock 1 "cash" "d" "t").1 = 1 ∧
    (process_batch_to_transaction dbAmpleStock 1 "cash" "d" "t").2.txns.length = 1 ∧
    ((process_batch_to_transaction dbAmpleStock 1 "cash" "d" "t").2.bevs.find?
        (fun b => b.id = "mojito")).map (fun b => (b.inventory, b.sales))
      = some (10, 0) := by
  decide

/-- Batch 1 already in the terminal status "completed" (with an item), and
batch 2 pending. -/
def dbTerminalBatch : DB :=
  ⟨[⟨"mojito", "Mojito", "cocktail", "rum", 1000, 10, "", 0⟩], [], [], [], [],
   [⟨1, "5", "completed", none⟩, ⟨2, "6", "pending", none⟩],
   [⟨1, 1, "mojito", 2, none, "pending"⟩], [], 1, 1, 3, 2, 1⟩

/-- C3 (behaviour of the code at the claim's failing inputs): finalizing an
already-completed batch succeeds again and creates another transaction;
adding an item to it succeeds and appends; and cancelling the pending batch
2 returns False with no state change (so cancel never sets "cancelled") —
the terminal-state machine of the claim is not enforced anywhere. -/
theorem C3_terminal_states_not_enforced :
    ((dbTerminalBatch.batches.find? (fun b => b.batchId = 1)).map OrderBatch.status
      = some "completed") ∧
    (process_batch_to_transaction dbTerminalBatch 1 "card" "d" "t").1 = 1 ∧
    (process_batch_to_transaction dbTerminalBatch 1 "card" "d" "t").2.txns.length = 1 ∧
    (add_to_batch dbTerminalBatch 1 "mojito" 1 none).1 = true ∧
    (add_to_batch dbTerminalBatch 1 "mojito" 1 none).2.batchItems.length = 2 ∧
    cancel_batch dbTerminalBatch 2 = (false, dbTerminalBatch) := by
  decide

/-- Batch 1 in the terminal status "completed" and an empty item list, for
the C4 counterexample. -/
def dbCompletedBatch : DB :=
  ⟨[⟨"mojito", "Mojito", "cocktail", "rum", 1000, 10, "", 0⟩], [], [], [], [],
   [⟨1, "5", "completed", none⟩], [], [], 1, 1, 2, 1, 1⟩

/-- C4 counterexample: with the current batch id pointing at a batch whose
status is "completed" (not Pending), `add_to_batch` succeeds and appends a
BatchItem — the claim requires the call to fail whenever the batch is not
Pending. -/
theorem C4_counterexample_add_to_terminal_batch :
    ((dbCompletedBatch.batches.find? (fun b => b.batchId = 1)).map OrderBatch.status
      = some "completed") ∧
    (api_add_to_batch dbCompletedBatch (some 1) "mojito" 2 none).1
      = AddToBatchResult.added "mojito" "Mojito" ∧
    (api_add_to_batch dbCompletedBatch (some 1) "mojito" 2 none).2.batchItems.length
      = dbCompletedBatch.batchItems.length + 1 := by
  decide

/-- C4 (amended): addItem fails when no batch is active, or when the
beverage id resolves neither literally nor through the derived
(lower-case, space-to-underscore) id; a literal hit appends exactly one
BatchItem under the given id and a derived hit under the derived id; no
beverage row (inventory included) is ever changed.  The batch's existence
and Pending status are not checked. -/
theorem C4_amended_add_to_batch (db : DB) (cur : Option Nat) (bevId : String)
    (quantity : Int) (notes : Option String) :
    (cur = none → api_add_to_batch db cur bevId quantity notes = (.noActiveBatch, db)) ∧
    (∀ bid, cur = some bid →
       get_bev_by_id db bevId = none → get_bev_by_id db (generate_id bevId) = none →
       api_add_to_batch db cur bevId quantity notes = (.bevNotFound bevId, db)) ∧
    (∀ bid b, cur = some bid → get_bev_by_id db bevId = some b →
       api_add_to_batch db cur bevId quantity notes
         = (.added bevId b.name,
            { db with
              batchItems := db.batchItems
                ++ [⟨db.nextBatchItemId, bid, bevId, quantity, notes, "pending"⟩],
              nextBatchItemId := db.nextBatchItemId + 1 })) ∧
    (∀ bid b, cur = some bid → get_bev_by_id db bevId = none →
       get_bev_by_id db (generate_id bevId) = some b →
       api_add_to_batch db cur bevId quantity notes
         = (.added (generate_id bevId) b.name,
            { db with
              batchItems := db.batchItems
                ++ [⟨db.nextBatchItemId, bid, generate_id bevId, quantity, notes, "pending"⟩],
              nextBatchItemId := db.nextBatchItemId + 1 })) ∧
    (api_add_to_batch db cur bevId quantity notes).2.bevs = db.bevs := by
  refine ⟨?_, ?_, ?_, ?_, ?_⟩
  · intro h
    rw [h]
    rfl
  · intro bid hc h1 h2
    rw [hc]
    unfold api_add_to_batch resolve_bev
    rw [h1, h2]
  · intro bid b hc h1
    rw [hc]
    unfold api_add_to_batch resolve_bev add_to_batch
    rw [h1]
  · intro bid b hc h1 h2
    rw [hc]
    unfold api_add_to_batch resolve_bev add_to_batch
    rw [h1, h2]
  · cases cur with
    | none => rfl
    | some bid =>
      unfold api_add_to_batch
      cases hr : resolve_bev db bevId with
      | none => rfl
      | some p =>
        obtain ⟨rid, b⟩ := p
        rfl

/-- Witness for C4 (amended): the inactive-batch, unresolvable-id, literal
and derived resolutions, each at a concrete state. -/
theorem C4_amended_add_to_batch_witness :
    api_add_to_batch dbCompletedBatch none "mojito" 1 none
      = (.noActiveBatch, dbCompletedBatch) ∧
    api_add_to_batch dbCompletedBatch (some 1) "zzz" 1 none
      = (.bevNotFound "zzz", dbCompletedBatch) ∧
    api_add_to_batch dbCompletedBatch (some 1) "mojito" 2 none
      = (.added "mojito" "Mojito",
         { dbCompletedBatch with
           batchItems := dbCompletedBatch.batchItems
             ++ [⟨dbCompletedBatch.nextBatchItemId, 1, "mojito", 2, none, "pending"⟩],
           nextBatchItemId := dbCompletedBatch.nextBatchItemId + 1 }) ∧
    api_add_to_batch dbCompletedBatch (some 1) "Mojito" 2 none
      = (.added (generate_id "Mojito") "Mojito",
         { dbCompletedBatch with
           batchItems := dbCompletedBatch.batchItems
             ++ [⟨dbCompletedBatch.nextBatchItemId, 1, generate_id "Mojito", 2, none,
                  "pending"⟩],
           nextBatchItemId := dbCompletedBatch.nextBatchItemId + 1 }) := by
  refine ⟨(C4_amended_add_to_batch dbCompletedBatch none "mojito" 1 none).1 rfl,
    (C4_amended_add_to_batch dbCompletedBatch (some 1) "zzz" 1 none).2.1 1 rfl
      (by decide) (by decide),
    (C4_amended_add_to_batch dbCompletedBatch (some 1) "mojito" 2 none).2.2.1 1
      ⟨"mojito", "Mojito", "cocktail", "rum", 1000, 10, "", 0⟩ rfl (by decide),
    (C4_amended_add_to_batch dbCompletedBatch (some 1) "Mojito" 2 none).2.2.2.1 1
      ⟨"mojito", "Mojito", "cocktail", "rum", 1000, 10, "", 0⟩ rfl (by decide) (by decide)⟩

end BPLV
